import Mathlib

/-!
Verification development for the vector-icon synthesis pipeline
(`src/utils/documentIcon.ts`) and the overflow-truncation widget
(`src/components/paragraph/index.tsx`).

JavaScript numbers are modelled exactly by `JSNum`: a rational value, the two
infinities, or NaN. Signed zero is not distinguished (no claim depends on it).
The external platform functions that the code calls — `Number(string)`,
`parseFloat`, `String.prototype.trim`, `String.prototype.split` on the regular
expression used at `documentIcon.ts:37` — are modelled faithfully on the
decimal fragment the claims exercise (hexadecimal and exponent numerals of
ECMAScript `Number` are outside the model). The DOM document produced by the
external `DOMParser` collaborator is modelled as the tree `XmlElem`;
`querySelectorAll` document order is depth-first pre-order.
-/

/-- JavaScript number: NaN, the two infinities, or a finite value (modelled
as an exact rational; signed zero is not distinguished). -/
inductive JSNum where
  | nan : JSNum
  | posInf : JSNum
  | negInf : JSNum
  | fin : ℚ → JSNum
deriving DecidableEq, Repr

namespace JSNum

/-- JavaScript falsiness of a number: NaN and 0 are falsy. -/
def falsy : JSNum → Bool
  | nan => true
  | fin q => q = 0
  | _ => false

end JSNum

/-- Model of `Math.max` on two arguments: NaN-propagating maximum. -/
def jsMax : JSNum → JSNum → JSNum
  | .nan, _ => .nan
  | _, .nan => .nan
  | .posInf, _ => .posInf
  | _, .posInf => .posInf
  | .negInf, b => b
  | a, .negInf => a
  | .fin a, .fin b => .fin (max a b)

/-- Model of JavaScript division (sign of a zero divisor taken as positive,
since signed zero is not modelled). -/
def jsDiv : JSNum → JSNum → JSNum
  | .nan, _ => .nan
  | _, .nan => .nan
  | .posInf, .posInf => .nan
  | .posInf, .negInf => .nan
  | .negInf, .posInf => .nan
  | .negInf, .negInf => .nan
  | .posInf, .fin b => if 0 ≤ b then .posInf else .negInf
  | .negInf, .fin b => if 0 ≤ b then .negInf else .posInf
  | .fin _, .posInf => .fin 0
  | .fin _, .negInf => .fin 0
  | .fin a, .fin b =>
    if b = 0 then (if a = 0 then .nan else if 0 < a then .posInf else .negInf)
    else .fin (a / b)

/-- Model of JavaScript multiplication. -/
def jsMul : JSNum → JSNum → JSNum
  | .nan, _ => .nan
  | _, .nan => .nan
  | .posInf, .posInf => .posInf
  | .posInf, .negInf => .negInf
  | .negInf, .posInf => .negInf
  | .negInf, .negInf => .posInf
  | .posInf, .fin b => if b = 0 then .nan else if 0 < b then .posInf else .negInf
  | .fin a, .posInf => if a = 0 then .nan else if 0 < a then .posInf else .negInf
  | .negInf, .fin b => if b = 0 then .nan else if 0 < b then .negInf else .posInf
  | .fin a, .negInf => if a = 0 then .nan else if 0 < a then .negInf else .posInf
  | .fin a, .fin b => .fin (a * b)

/-- Model of JavaScript addition. -/
def jsAdd : JSNum → JSNum → JSNum
  | .nan, _ => .nan
  | _, .nan => .nan
  | .posInf, .negInf => .nan
  | .negInf, .posInf => .nan
  | .posInf, _ => .posInf
  | _, .posInf => .posInf
  | .negInf, _ => .negInf
  | _, .negInf => .negInf
  | .fin a, .fin b => .fin (a + b)

/-- Model of the JavaScript comparison a &gt; b (false whenever NaN is involved). -/
def jsGt : JSNum → JSNum → Bool
  | .nan, _ => false
  | _, .nan => false
  | .posInf, .posInf => false
  | .posInf, _ => true
  | _, .posInf => false
  | .negInf, _ => false
  | .fin _, .negInf => true
  | .fin a, .fin b => b < a

/-- Whitespace characters recognised by the model of `trim` and of the
separator regular expression at `documentIcon.ts:37`. -/
def isWsChar (c : Char) : Bool := c = ' ' || c = '\t' || c = '\n' || c = '\r'

/-- Model of `String.prototype.trim` on character lists. -/
def trimChars (l : List Char) : List Char :=
  ((l.dropWhile isWsChar).reverse.dropWhile isWsChar).reverse

/-- Model of `String.prototype.trim`. -/
def jsTrim (s : String) : String := String.mk (trimChars s.data)

/-- Decimal digit test. -/
def decDigit (c : Char) : Bool := '0' ≤ c && c ≤ '9'

/-- Numeric value of a list of decimal digits. -/
def natOfDigits (l : List Char) : ℕ :=
  l.foldl (fun n c => 10 * n + (c.toNat - 48)) 0

/-- Unsigned decimal numeral (integer part, optional fraction), the fragment
of the ECMAScript string-numeric-literal grammar the claims exercise. -/
def parseUnsigned (l : List Char) : Option ℚ :=
  let intPart := l.takeWhile decDigit
  let rest := l.dropWhile decDigit
  match rest with
  | [] => if intPart.isEmpty then none else some (natOfDigits intPart : ℚ)
  | '.' :: frac =>
    if (intPart.isEmpty && frac.isEmpty) || !frac.all decDigit then none
    else some ((natOfDigits intPart : ℚ) + (natOfDigits frac : ℚ) / 10 ^ frac.length)
  | _ => none

/-- Model of the platform conversion `Number(string)` on the decimal fragment:
trims, maps the empty string to 0, accepts a signed decimal numeral, and
yields NaN on anything else. -/
def jsNumber (s : String) : JSNum :=
  match trimChars s.data with
  | [] => .fin 0
  | '-' :: rest =>
    match parseUnsigned rest with
    | some q => .fin (-q)
    | none => .nan
  | '+' :: rest =>
    match parseUnsigned rest with
    | some q => .fin q
    | none => .nan
  | l =>
    match parseUnsigned l with
    | some q => .fin q
    | none => .nan

/-- Model of the platform conversion `parseFloat(string)`: reads the longest
signed decimal prefix after leading whitespace, NaN when no digit is read. -/
def jsParseFloat (s : String) : JSNum :=
  let l := s.data.dropWhile isWsChar
  let signedTail : Bool × List Char :=
    match l with
    | '-' :: t => (true, t)
    | '+' :: t => (false, t)
    | t => (false, t)
  let intPart := signedTail.2.takeWhile decDigit
  let rest := signedTail.2.dropWhile decDigit
  let frac :=
    match rest with
    | '.' :: t => t.takeWhile decDigit
    | _ => []
  if intPart.isEmpty && frac.isEmpty then .nan
  else
    let v : ℚ :=
      if frac.isEmpty then (natOfDigits intPart : ℚ)
      else (natOfDigits intPart : ℚ) + (natOfDigits frac : ℚ) / 10 ^ frac.length
    .fin (if signedTail.1 then -v else v)

/-- One step of the model of `split(/\s+|,/)` (`documentIcon.ts:37`): a run of
whitespace is one separator, a single comma is one separator, and the flag
records whether the scanner is inside a whitespace run (so that further
whitespace extends the current separator instead of emitting a piece). -/
def splitAux : List Char → List Char → Bool → List (List Char)
  | [], acc, _ => [acc.reverse]
  | c :: cs, acc, afterWs =>
    if isWsChar c then
      if afterWs then splitAux cs acc afterWs
      else acc.reverse :: splitAux cs [] true
    else if c = ',' then
      acc.reverse :: splitAux cs [] false
    else
      splitAux cs (c :: acc) false

/-- Model of `String.prototype.split` on the regular expression of
`documentIcon.ts:37`. -/
def splitWs (s : String) : List String :=
  (splitAux s.data [] false).map String.mk

/-- Lines 31-39 of `documentIcon.ts`: read the root `viewBox` attribute (a
null or empty attribute is falsy), trim it, split it, convert each piece with
`Number`, and keep the four numbers only when the split produced exactly four
pieces; otherwise all four components stay 0. -/
def parseViewBoxQuad (vbAttr : Option String) : JSNum × JSNum × JSNum × JSNum :=
  match vbAttr with
  | none => (.fin 0, .fin 0, .fin 0, .fin 0)
  | some s =>
    if s = "" then (.fin 0, .fin 0, .fin 0, .fin 0)
    else
      match (splitWs (jsTrim s)).map jsNumber with
      | [a, b, c, d] => (a, b, c, d)
      | _ => (.fin 0, .fin 0, .fin 0, .fin 0)

/-- The value `Number(svgEl.getAttribute(name) || 128)` of `documentIcon.ts:43-44`:
a missing or empty attribute short-circuits to 128; any other string goes
through `Number`. -/
def attrDim (a : Option String) : JSNum :=
  match a with
  | none => .fin 128
  | some s => if s = "" then .fin 128 else jsNumber s

/-- Lines 41-45 of `documentIcon.ts`: when either view-box dimension is falsy
(0 or NaN), both dimensions are replaced by the root width/height attribute
values. -/
def resolveDims (vbW vbH : JSNum) (widthAttr heightAttr : Option String) : JSNum × JSNum :=
  if vbW.falsy || vbH.falsy then (attrDim widthAttr, attrDim heightAttr)
  else (vbW, vbH)

/-- Model of the parsed XML document tree delivered by the external `DOMParser`
collaborator: tag name, attribute list, child elements. -/
inductive XmlElem where
  | mk : String → List (String × String) → List XmlElem → XmlElem

/-- Tag name of an element. -/
def XmlElem.tag : XmlElem → String
  | .mk t _ _ => t

/-- Attribute list of an element. -/
def XmlElem.attrs : XmlElem → List (String × String)
  | .mk _ a _ => a

/-- Child elements of an element. -/
def XmlElem.childElems : XmlElem → List XmlElem
  | .mk _ _ c => c

/-- Model of `getAttribute`: the attribute value, or null when absent. -/
def getAttr (e : XmlElem) (name : String) : Option String :=
  (e.attrs.find? (fun p => p.1 == name)).map (fun p => p.2)

mutual

/-- Model of `doc.querySelectorAll('path')` (`documentIcon.ts:60`): every
element with tag `path`, in document order (depth-first pre-order). -/
def collectPaths : XmlElem → List XmlElem
  | .mk t a cs =>
    (if t = "path" then [XmlElem.mk t a cs] else []) ++ collectPathsList cs

/-- Pre-order path collection over a sibling list. -/
def collectPathsList : List XmlElem → List XmlElem
  | [] => []
  | e :: es => collectPaths e ++ collectPathsList es

end

/-- Lines 66-74 of `documentIcon.ts`: paint resolution for fill and stroke.
`override ?? declared ?? undefined`, then `v && v !== 'none' ? v : undefined`,
so a falsy (empty) or literal `none` result becomes undefined. -/
def resolvePaint (override declared : Option String) : Option String :=
  match override.or declared with
  | some s => if s ≠ "" && s ≠ "none" then some s else none
  | none => none

/-- Line 68 of `documentIcon.ts`: stroke width resolution —
`strokeWidth ?? (p.hasAttribute('stroke-width') ? Number(p.getAttribute('stroke-width')) : undefined)`. -/
def resolveSW (override : Option ℚ) (p : XmlElem) : Option JSNum :=
  match override with
  | some w => some (.fin w)
  | none =>
    match getAttr p "stroke-width" with
    | some s => some (jsNumber s)
    | none => none

/-- A created `Konva.Path` node (`documentIcon.ts:70-75`). -/
structure KonvaPath where
  data : String
  fill : Option String
  stroke : Option String
  strokeWidth : Option JSNum
deriving DecidableEq, Repr

/-- Lines 62-77 of `documentIcon.ts`: the loop body for one `<path>` element —
skip it when its `d` attribute is falsy (missing or empty), otherwise build
the `Konva.Path` node. -/
def buildPathNode (fillOv strokeOv : Option String) (swOv : Option ℚ)
    (p : XmlElem) : Option KonvaPath :=
  match getAttr p "d" with
  | none => none
  | some d =>
    if d = "" then none
    else some
      { data := d
        fill := resolvePaint fillOv (getAttr p "fill")
        stroke := resolvePaint strokeOv (getAttr p "stroke")
        strokeWidth := resolveSW swOv p }

/-- The children added to the container group, in document order. -/
def buildChildren (fillOv strokeOv : Option String) (swOv : Option ℚ)
    (doc : XmlElem) : List KonvaPath :=
  (collectPaths doc).filterMap (buildPathNode fillOv strokeOv swOv)

/-- The created `Konva.Group` container (`documentIcon.ts:49-57`). -/
structure KonvaGroup where
  x : ℚ
  y : ℚ
  offsetX : JSNum
  offsetY : JSNum
  scaleX : JSNum
  scaleY : JSNum
  children : List KonvaPath
deriving DecidableEq, Repr

/-- The view-box dimensions after the fallback of `documentIcon.ts:41-45`. -/
def svgResolvedDims (doc : XmlElem) : JSNum × JSNum :=
  let q := parseViewBoxQuad (getAttr doc "viewBox")
  resolveDims q.2.2.1 q.2.2.2 (getAttr doc "width") (getAttr doc "height")

/-- `createSvgIcon` (`documentIcon.ts:20-81`) from the parsed document on: the
source-type dispatch, fetch and `DOMParser` call are external collaborators, so
the model starts from the parsed root element `doc`. Computes the view box,
the fallback dimensions, the scale `size / Math.max(vbW, vbH)`, and the
container group with one child per kept path. The TS `size` default is 18. -/
def createSvgIcon (x y size : ℚ) (fill stroke : Option String)
    (strokeWidth : Option ℚ) (doc : XmlElem) : KonvaGroup :=
  let q := parseViewBoxQuad (getAttr doc "viewBox")
  let dims := svgResolvedDims doc
  let scale := jsDiv (.fin size) (jsMax dims.1 dims.2)
  { x := x
    y := y
    offsetX := q.1
    offsetY := q.2.1
    scaleX := scale
    scaleY := scale
    children := buildChildren fill stroke strokeWidth doc }

/-- A created `Konva.Rect` node (`documentIcon.ts:106-122`). -/
structure KonvaRect where
  x : ℚ
  y : ℚ
  width : ℚ
  height : ℚ
  fillLinearGradientStartPoint : ℚ × ℚ
  fillLinearGradientEndPoint : ℚ × ℚ
  fillLinearGradientColorStops : List (ℚ × String)
  stroke : String
  cornerRadius : List ℚ
  strokeWidth : ℚ
  shadowColor : String
  shadowBlur : ℚ
  shadowOffset : ℚ × ℚ
  shadowOpacity : ℚ
deriving DecidableEq, Repr

/-- A created `Konva.Line` node (`documentIcon.ts:129-134`). -/
structure KonvaLine where
  points : List ℚ
  stroke : String
  strokeWidth : ℚ
  lineCap : String
deriving DecidableEq, Repr

/-- A node returned by `createDocumentIcon`: the rectangle or a ruling line. -/
inductive DocIconNode where
  | rect : KonvaRect → DocIconNode
  | line : KonvaLine → DocIconNode
deriving DecidableEq, Repr

/-- `createDocumentIcon` (`documentIcon.ts:83-137`): one gradient rectangle of
fixed 16 by 16 size with the top-right corner rounded, followed by 4 ruling
lines (loop index i running 1..4, the first line 3px shorter). Optional style
arguments carry the TS destructuring defaults. -/
def createDocumentIcon (x y : ℚ) (fillArg strokeArg : Option String)
    (strokeWidthArg cornerSizeArg : Option ℚ) : List DocIconNode :=
  let fill := fillArg.getD "rgb(255, 222, 33)"
  let stroke := strokeArg.getD "#000"
  let strokeWidth := strokeWidthArg.getD 1
  let cornerSize := cornerSizeArg.getD 3
  let width : ℚ := 16
  let height : ℚ := 16
  let paddingTop : ℚ := 4
  let paddingBottom : ℚ := 4
  let textLineCount : ℕ := 4
  let spacing : ℚ := (height - paddingTop - paddingBottom) / ((textLineCount : ℚ) + 1)
  let rect : KonvaRect :=
    { x := x
      y := y
      width := width
      height := height
      fillLinearGradientStartPoint := (0, 0)
      fillLinearGradientEndPoint := (0, height)
      fillLinearGradientColorStops := [(0, fill), (1, "#fff")]
      stroke := stroke
      cornerRadius := [0, cornerSize, 0, 0]
      strokeWidth := strokeWidth
      shadowColor := "rgba(0,0,0,0.2)"
      shadowBlur := 2
      shadowOffset := (1, 1)
      shadowOpacity := 3 / 10 }
  let lines : List KonvaLine :=
    (List.range textLineCount).map (fun j =>
      let i : ℚ := (j : ℚ) + 1
      let yPos := y + paddingTop + i * spacing
      let xEnd := if j = 0 then x + width - 6 else x + width - 3
      { points := [x + 3, yPos, xEnd, yPos]
        stroke := "#555"
        strokeWidth := 3 / 5
        lineCap := "round" })
  DocIconNode.rect rect :: lines.map DocIconNode.line

/-- State of the `ExpandableParagraph` component (`paragraph/index.tsx:11-12`):
the `expanded` and `isOverflowing` `useState` flags. -/
structure ParagraphState where
  expanded : Bool
  isOverflowing : Bool
deriving DecidableEq, Repr

/-- `measureOverflow` (`paragraph/index.tsx:30-40`) as the flag it computes:
`lineHeight = parseFloat(computedStyle.lineHeight || '22')`,
`maxHeight = lineHeight * rows`, overflowing iff
`el.scrollHeight > maxHeight + 1`. -/
def measureOverflow (lineHeightStr : String) (rows scrollHeight : ℚ) : Bool :=
  let lineHeight := jsParseFloat (if lineHeightStr = "" then "22" else lineHeightStr)
  let maxHeight := jsMul lineHeight (.fin rows)
  jsGt (.fin scrollHeight) (jsAdd maxHeight (.fin 1))

/-- `toggleExpanded` (`paragraph/index.tsx:42`): flip the `expanded` flag. -/
def toggleExpanded (s : ParagraphState) : ParagraphState :=
  { s with expanded := !s.expanded }

/-- Events that update the component state: a re-measurement (with the
computed line-height string, the row budget and the measured scroll height)
or the user toggle. -/
inductive PEvent where
  | measure : String → ℚ → ℚ → PEvent
  | toggle : PEvent

/-- State transition of the component: `measureOverflow` stores only the
overflow flag (`setIsOverflowing`), the toggle calls `toggleExpanded`. -/
def stepParagraph (s : ParagraphState) : PEvent → ParagraphState
  | .measure lh rows sh => { s with isOverflowing := measureOverflow lh rows sh }
  | .toggle => toggleExpanded s

/-- The more/less affordance is rendered exactly when `isOverflowing` is set
(`paragraph/index.tsx:63-67`). -/
def showsAffordance (s : ParagraphState) : Bool := s.isOverflowing

/-- A character that the separator regular expression does not match. -/
def IsTokChar (c : Char) : Prop := isWsChar c = false ∧ c ≠ ','

instance (c : Char) : Decidable (IsTokChar c) := by
  unfold IsTokChar; infer_instance

/-- A maximal separator match of the regular expression: a single comma, or a
nonempty run of whitespace. -/
def IsSep (s : List Char) : Prop :=
  s = [','] ∨ (s ≠ [] ∧ ∀ c ∈ s, isWsChar c = true)

instance (s : List Char) : Decidable (IsSep s) := by
  unfold IsSep; infer_instance

theorem splitAux_token (t rest acc : List Char) (b : Bool)
    (ht : t ≠ []) (h : ∀ c ∈ t, IsTokChar c) :
    splitAux (t ++ rest) acc b = splitAux rest (t.reverse ++ acc) false := by
  induction t generalizing acc b with
  | nil => exact absurd rfl ht
  | cons c t ih =>
    have hc := h c (List.mem_cons_self ..)
    have step : splitAux (c :: (t ++ rest)) acc b = splitAux (t ++ rest) (c :: acc) false := by
      simp [splitAux, hc.1, hc.2]
    rcases eq_or_ne t [] with rfl | hne
    · simpa using step
    · rw [List.cons_append, step, ih (c :: acc) false hne
        (fun x hx => h x (List.mem_cons_of_mem _ hx))]
      simp

theorem splitAux_ws_skip (s rest acc : List Char) (h : ∀ c ∈ s, isWsChar c = true) :
    splitAux (s ++ rest) acc true = splitAux rest acc true := by
  induction s with
  | nil => rfl
  | cons c s ih =>
    have hc := h c (List.mem_cons_self ..)
    rw [List.cons_append,
      show splitAux (c :: (s ++ rest)) acc true = splitAux (s ++ rest) acc true by
        simp [splitAux, hc]]
    exact ih (fun x hx => h x (List.mem_cons_of_mem _ hx))

theorem splitAux_ws_run (s rest acc : List Char) (hs : s ≠ [])
    (h : ∀ c ∈ s, isWsChar c = true) :
    splitAux (s ++ rest) acc false = acc.reverse :: splitAux rest [] true := by
  cases s with
  | nil => exact absurd rfl hs
  | cons c s =>
    have hc := h c (List.mem_cons_self ..)
    rw [List.cons_append,
      show splitAux (c :: (s ++ rest)) acc false = acc.reverse :: splitAux (s ++ rest) [] true by
        simp [splitAux, hc]]
    rw [splitAux_ws_skip s rest [] (fun x hx => h x (List.mem_cons_of_mem _ hx))]

theorem splitAux_comma (rest acc : List Char) (b : Bool) :
    splitAux (',' :: rest) acc b = acc.reverse :: splitAux rest [] false := by
  have h : isWsChar ',' = false := by decide
  simp [splitAux, h]

theorem splitAux_sep (s rest acc : List Char) (hs : IsSep s) :
    ∃ b, splitAux (s ++ rest) acc false = acc.reverse :: splitAux rest [] b := by
  rcases hs with rfl | ⟨hne, hws⟩
  · exact ⟨false, by simpa using splitAux_comma rest acc false⟩
  · exact ⟨true, splitAux_ws_run s rest acc hne hws⟩

theorem splitAux_tok_sep (t s rest : List Char) (b : Bool) (ht : t ≠ [])
    (k : ∀ c ∈ t, IsTokChar c) (hs : IsSep s) :
    ∃ b2, splitAux (t ++ (s ++ rest)) [] b = t :: splitAux rest [] b2 := by
  obtain ⟨b2, h⟩ := splitAux_sep s rest (t.reverse ++ []) hs
  refine ⟨b2, ?_⟩
  rw [splitAux_token t (s ++ rest) [] b ht k, h]
  simp

theorem splitAux_last (t : List Char) (b : Bool) (ht : t ≠ [])
    (k : ∀ c ∈ t, IsTokChar c) : splitAux t [] b = [t] := by
  have h := splitAux_token t [] [] b ht k
  rw [List.append_nil] at h
  rw [h]
  simp [splitAux]

theorem splitAux_four (t1 t2 t3 t4 s1 s2 s3 : List Char)
    (h1 : t1 ≠ []) (h2 : t2 ≠ []) (h3 : t3 ≠ []) (h4 : t4 ≠ [])
    (k1 : ∀ c ∈ t1, IsTokChar c) (k2 : ∀ c ∈ t2, IsTokChar c)
    (k3 : ∀ c ∈ t3, IsTokChar c) (k4 : ∀ c ∈ t4, IsTokChar c)
    (hs1 : IsSep s1) (hs2 : IsSep s2) (hs3 : IsSep s3) :
    splitAux (t1 ++ (s1 ++ (t2 ++ (s2 ++ (t3 ++ (s3 ++ t4)))))) [] false =
      [t1, t2, t3, t4] := by
  obtain ⟨b1, e1⟩ := splitAux_tok_sep t1 s1 (t2 ++ (s2 ++ (t3 ++ (s3 ++ t4)))) false h1 k1 hs1
  obtain ⟨b2, e2⟩ := splitAux_tok_sep t2 s2 (t3 ++ (s3 ++ t4)) b1 h2 k2 hs2
  obtain ⟨b3, e3⟩ := splitAux_tok_sep t3 s3 t4 b2 h3 k3 hs3
  rw [e1, e2, e3, splitAux_last t4 b3 h4 k4]

theorem trimChars_token_ends (t1 mid t4 : List Char) (h1 : t1 ≠ []) (h4 : t4 ≠ [])
    (c1 : ∀ c ∈ t1, isWsChar c = false) (c4 : ∀ c ∈ t4, isWsChar c = false) :
    trimChars (t1 ++ (mid ++ t4)) = t1 ++ (mid ++ t4) := by
  unfold trimChars
  have hd : (t1 ++ (mid ++ t4)).dropWhile isWsChar = t1 ++ (mid ++ t4) := by
    obtain ⟨c, t1r, rfl⟩ := List.exists_cons_of_ne_nil h1
    simp [List.dropWhile_cons, c1 c (by simp)]
  rw [hd]
  have h4r : t4.reverse ≠ [] := by simpa using h4
  obtain ⟨d, ds, hds⟩ := List.exists_cons_of_ne_nil h4r
  have hdmem : d ∈ t4 := by
    rw [← List.mem_reverse, hds]
    exact List.mem_cons_self ..
  have hrev : (t1 ++ (mid ++ t4)).reverse = d :: (ds ++ (mid.reverse ++ t1.reverse)) := by
    simp [hds, List.append_assoc]
  rw [hrev]
  simp only [List.dropWhile_cons, c4 d hdmem, Bool.false_eq_true, if_false]
  rw [← hrev, List.reverse_reverse]

/-- C5 (amended): a viewBox attribute made of four nonempty separator-free
tokens joined by three separators, each separator a single comma or a nonempty
whitespace run (a comma adjacent to whitespace is two separator matches, which
produces an empty fifth piece and makes the attribute fall back to all zeros),
parses as minX, minY, width, height equal to the `Number` values of the four
tokens. -/
theorem C5_amended (t1 t2 t3 t4 s1 s2 s3 : String) (q1 q2 q3 q4 : ℚ)
    (h1 : t1.data ≠ []) (h2 : t2.data ≠ []) (h3 : t3.data ≠ []) (h4 : t4.data ≠ [])
    (k1 : ∀ c ∈ t1.data, IsTokChar c) (k2 : ∀ c ∈ t2.data, IsTokChar c)
    (k3 : ∀ c ∈ t3.data, IsTokChar c) (k4 : ∀ c ∈ t4.data, IsTokChar c)
    (hs1 : IsSep s1.data) (hs2 : IsSep s2.data) (hs3 : IsSep s3.data)
    (n1 : jsNumber t1 = .fin q1) (n2 : jsNumber t2 = .fin q2)
    (n3 : jsNumber t3 = .fin q3) (n4 : jsNumber t4 = .fin q4) :
    parseViewBoxQuad (some (t1 ++ s1 ++ t2 ++ s2 ++ t3 ++ s3 ++ t4)) =
      (.fin q1, .fin q2, .fin q3, .fin q4) := by
  have hdata : (t1 ++ s1 ++ t2 ++ s2 ++ t3 ++ s3 ++ t4).data =
      t1.data ++ (s1.data ++ (t2.data ++ (s2.data ++ (t3.data ++ (s3.data ++ t4.data))))) := by
    simp [String.data_append]
  have hdata2 : (t1 ++ s1 ++ t2 ++ s2 ++ t3 ++ s3 ++ t4).data =
      t1.data ++ ((s1.data ++ (t2.data ++ (s2.data ++ (t3.data ++ s3.data)))) ++ t4.data) := by
    simp [String.data_append, List.append_assoc]
  have hne : t1 ++ s1 ++ t2 ++ s2 ++ t3 ++ s3 ++ t4 ≠ "" := by
    intro h
    have h0 := congrArg String.data h
    rw [hdata] at h0
    simp at h0
    exact h1 h0.1
  have htrim : trimChars (t1 ++ s1 ++ t2 ++ s2 ++ t3 ++ s3 ++ t4).data =
      (t1 ++ s1 ++ t2 ++ s2 ++ t3 ++ s3 ++ t4).data := by
    rw [hdata2]
    exact trimChars_token_ends _ _ _ h1 h4 (fun c hc => (k1 c hc).1) (fun c hc => (k4 c hc).1)
  have hsplit : splitWs (jsTrim (t1 ++ s1 ++ t2 ++ s2 ++ t3 ++ s3 ++ t4)) = [t1, t2, t3, t4] := by
    unfold splitWs jsTrim
    rw [show (String.mk (trimChars (t1 ++ s1 ++ t2 ++ s2 ++ t3 ++ s3 ++ t4).data)).data
        = trimChars (t1 ++ s1 ++ t2 ++ s2 ++ t3 ++ s3 ++ t4).data from rfl]
    rw [htrim, hdata]
    rw [splitAux_four t1.data t2.data t3.data t4.data s1.data s2.data s3.data
      h1 h2 h3 h4 k1 k2 k3 k4 hs1 hs2 hs3]
    rfl
  simp only [parseViewBoxQuad, hne, if_false, reduceIte, hsplit, List.map_cons, List.map_nil,
    n1, n2, n3, n4]

/-- C5 counterexample: the attribute "0 0, 10 10" — four numbers separated by
a mix of whitespace and a comma followed by a space, exactly the claim's
quantification — does not parse as (0, 0, 10, 10): the comma and the following
space are two separator matches, the split yields five pieces, and the parse
falls back to all zeros. -/
theorem C5_counterexample :
    parseViewBoxQuad (some "0 0, 10 10") = (.fin 0, .fin 0, .fin 0, .fin 0) ∧
    parseViewBoxQuad (some "0 0, 10 10") ≠ (.fin 0, .fin 0, .fin 10, .fin 10) := by
  constructor
  · decide
  · decide

/-- C5 witness: the amended statement applied to the attribute "1,2 30  40". -/
theorem C5_amended_witness :
    parseViewBoxQuad (some ("1" ++ "," ++ "2" ++ " " ++ "30" ++ "  " ++ "40")) =
      (.fin 1, .fin 2, .fin 30, .fin 40) :=
  C5_amended "1" "2" "30" "40" "," " " "  " 1 2 30 40
    (by decide) (by decide) (by decide) (by decide)
    (by decide) (by decide) (by decide) (by decide)
    (by decide) (by decide) (by decide)
    (by decide) (by decide) (by decide) (by decide)

/-- Document with a negative view box, used against C1. -/
def negViewBoxDoc : XmlElem := .mk "svg" [("viewBox", "0 0 -4 -4")] []

/-- C1 counterexample: for the parsed document whose root viewBox is
"0 0 -4 -4", both view-box dimensions are negative, the truthiness test at
`documentIcon.ts:41` does not substitute them (negative numbers are truthy),
and the computed scale 18 / max(-4, -4) is the negative number -9/2. -/
theorem C1_counterexample :
    (createSvgIcon 0 0 18 none none none negViewBoxDoc).scaleX = .fin (-(9 / 2)) ∧
    (-(9 / 2) : ℚ) < 0 := by
  have hquad : parseViewBoxQuad (getAttr negViewBoxDoc "viewBox") =
      (.fin 0, .fin 0, .fin (-4), .fin (-4)) := by decide
  have hdims : svgResolvedDims negViewBoxDoc = (.fin (-4), .fin (-4)) := by
    rw [svgResolvedDims, hquad]
    norm_num [resolveDims, JSNum.falsy]
  constructor
  · rw [show (createSvgIcon 0 0 18 none none none negViewBoxDoc).scaleX =
        jsDiv (.fin 18) (jsMax (svgResolvedDims negViewBoxDoc).1
          (svgResolvedDims negViewBoxDoc).2) from rfl, hdims]
    norm_num [jsMax, jsDiv]
  · norm_num

/-- C1 (amended): a zero or NaN parsed view-box dimension makes both
dimensions fall back to the root width/height attribute values (128 when the
attribute is missing or empty); strictly negative dimensions are not
substituted, so the computed scale can be negative (see the counterexample);
whenever the resolved dimensions are finite numbers of positive maximum, the
scale is the finite number size / max(w, h), positive for positive size. -/
theorem C1_amended (x y size w h : ℚ) (w0 h0 : JSNum) (wa ha : Option String)
    (fo so : Option String) (wo : Option ℚ) (doc : XmlElem) :
    (w0.falsy = true ∨ h0.falsy = true →
      resolveDims w0 h0 wa ha = (attrDim wa, attrDim ha)) ∧
    attrDim none = .fin 128 ∧
    attrDim (some "") = .fin 128 ∧
    (svgResolvedDims doc = (.fin w, .fin h) → 0 < max w h →
      (createSvgIcon x y size fo so wo doc).scaleX = .fin (size / max w h) ∧
      (0 < size → 0 < size / max w h)) := by
  refine ⟨?_, rfl, rfl, ?_⟩
  · intro hf
    rw [resolveDims, if_pos]
    rcases hf with hf | hf <;> simp [hf]
  · intro hdims hmax
    constructor
    · rw [show (createSvgIcon x y size fo so wo doc).scaleX =
          jsDiv (.fin size) (jsMax (svgResolvedDims doc).1 (svgResolvedDims doc).2) from rfl,
        hdims]
      simp only [jsMax, jsDiv, if_neg hmax.ne']
    · intro hsize
      positivity

/-- Document with an unparsable width attribute and no viewBox, used against
C1 and C4. -/
def badWidthDoc : XmlElem := .mk "svg" [("width", "abc"), ("height", "12")] []

/-- Document with a positive view box, used as the C1 witness input. -/
def posViewBoxDoc : XmlElem := .mk "svg" [("viewBox", "1 2 10 20")] []

/-- C1 witness: the amended statement applied at the view box (1, 2, 10, 20)
with size 18, and at a falsy width with missing attributes. -/
theorem C1_amended_witness :
    (createSvgIcon 0 0 18 none none none posViewBoxDoc).scaleX = .fin (18 / max 10 20) ∧
    (0 : ℚ) < 18 / max 10 20 ∧
    resolveDims (.fin 0) (.fin 5) none none = (attrDim none, attrDim none) := by
  have h := (C1_amended 0 0 18 10 20 (.fin 0) (.fin 5) none none none none none
    posViewBoxDoc).2.2.2 (by decide) (by norm_num)
  exact ⟨h.1, h.2 (by norm_num),
    (C1_amended 0 0 18 10 20 (.fin 0) (.fin 5) none none none none none
      posViewBoxDoc).1 (Or.inl (by decide))⟩

/-- C2: for a parsed view box (minX, minY, w, h) with w, h positive and any
target size, `createSvgIcon` leaves both dimensions unsubstituted, sets the
container offsets to (minX, minY), sets both scale components to the uniform
value size / max(w, h), and the longer edge max(w, h) times that scale is
exactly the target size. -/
theorem C2_uniform_scale (x y size mx my w h : ℚ) (fo so : Option String)
    (wo : Option ℚ) (doc : XmlElem)
    (hq : parseViewBoxQuad (getAttr doc "viewBox") = (.fin mx, .fin my, .fin w, .fin h))
    (hw : 0 < w) (hh : 0 < h) :
    (createSvgIcon x y size fo so wo doc).offsetX = .fin mx ∧
    (createSvgIcon x y size fo so wo doc).offsetY = .fin my ∧
    (createSvgIcon x y size fo so wo doc).scaleX = .fin (size / max w h) ∧
    (createSvgIcon x y size fo so wo doc).scaleY =
      (createSvgIcon x y size fo so wo doc).scaleX ∧
    jsMul (jsMax (.fin w) (.fin h)) ((createSvgIcon x y size fo so wo doc).scaleX) =
      .fin size := by
  have hdims : svgResolvedDims doc = (.fin w, .fin h) := by
    rw [svgResolvedDims, hq]
    simp [resolveDims, JSNum.falsy, hw.ne', hh.ne']
  have hmaxne : max w h ≠ 0 := (lt_max_of_lt_left hw).ne'
  have hscale : (createSvgIcon x y size fo so wo doc).scaleX = .fin (size / max w h) := by
    rw [show (createSvgIcon x y size fo so wo doc).scaleX =
        jsDiv (.fin size) (jsMax (svgResolvedDims doc).1 (svgResolvedDims doc).2) from rfl,
      hdims]
    simp only [jsMax, jsDiv, if_neg hmaxne]
  refine ⟨?_, ?_, hscale, rfl, ?_⟩
  · rw [show (createSvgIcon x y size fo so wo doc).offsetX =
        (parseViewBoxQuad (getAttr doc "viewBox")).1 from rfl, hq]
  · rw [show (createSvgIcon x y size fo so wo doc).offsetY =
        (parseViewBoxQuad (getAttr doc "viewBox")).2.1 from rfl, hq]
  · rw [hscale]
    simp only [jsMax, jsMul, JSNum.fin.injEq]
    rw [mul_comm]
    exact div_mul_cancel₀ size hmaxne

/-- Document with the view box (1, 2, 10, 20), used as the C2 witness input. -/
def c2WitnessDoc : XmlElem := .mk "svg" [("viewBox", "1 2 10 20")] []

/-- C2 witness: the theorem applied at the view box (1, 2, 10, 20), size 18. -/
theorem C2_uniform_scale_witness :
    (createSvgIcon 3 4 18 none none none c2WitnessDoc).offsetX = .fin 1 ∧
    (createSvgIcon 3 4 18 none none none c2WitnessDoc).offsetY = .fin 2 ∧
    (createSvgIcon 3 4 18 none none none c2WitnessDoc).scaleX = .fin (18 / max 10 20) ∧
    (createSvgIcon 3 4 18 none none none c2WitnessDoc).scaleY =
      (createSvgIcon 3 4 18 none none none c2WitnessDoc).scaleX ∧
    jsMul (jsMax (.fin 10) (.fin 20)) ((createSvgIcon 3 4 18 none none none c2WitnessDoc).scaleX) =
      .fin 18 :=
  C2_uniform_scale 3 4 18 1 2 10 20 none none none c2WitnessDoc
    (by decide) (by norm_num) (by norm_num)

/-- C4 counterexample: with no viewBox, width="abc" and height="12", the claim
predicts the unparsable width to default to 128 and the scale to be
size / 128; the code instead short-circuits only on a missing or empty
attribute, so `Number("abc")` is NaN, and the computed scale is NaN, not
18 / 128. -/
theorem C4_counterexample :
    attrDim (some "abc") = .nan ∧
    (createSvgIcon 0 0 18 none none none badWidthDoc).scaleX = .nan ∧
    (JSNum.nan ≠ .fin (18 / 128)) := by
  have habc : attrDim (some "abc") = .nan := by decide
  refine ⟨habc, ?_, by simp⟩
  have hdims : svgResolvedDims badWidthDoc = (.nan, jsNumber "12") := by decide
  rw [show (createSvgIcon 0 0 18 none none none badWidthDoc).scaleX =
      jsDiv (.fin 18) (jsMax (svgResolvedDims badWidthDoc).1
        (svgResolvedDims badWidthDoc).2) from rfl, hdims]
  rfl

/-- C4 (amended): when the root has no usable viewBox, the width and height
attributes are used, each defaulting independently to 128 only when the
attribute is missing or empty; a non-empty unparsable attribute value becomes
NaN (not 128, see the counterexample); markup with no viewBox and no
width/height attributes yields the 128-by-128 fallback and the scale
size / 128. -/
theorem C4_amended (x y size : ℚ) (fo so : Option String) (wo : Option ℚ)
    (doc : XmlElem) :
    attrDim none = .fin 128 ∧
    attrDim (some "") = .fin 128 ∧
    (∀ s : String, s ≠ "" → attrDim (some s) = jsNumber s) ∧
    (getAttr doc "viewBox" = none → getAttr doc "width" = none →
      getAttr doc "height" = none →
      (createSvgIcon x y size fo so wo doc).scaleX = .fin (size / 128) ∧
      (createSvgIcon x y size fo so wo doc).scaleY = .fin (size / 128)) := by
  refine ⟨rfl, rfl, ?_, ?_⟩
  · intro s hs
    simp [attrDim, hs]
  · intro hvb hw hh
    have hdims : svgResolvedDims doc = (.fin 128, .fin 128) := by
      rw [svgResolvedDims, hvb, hw, hh]
      rfl
    have h1 : (createSvgIcon x y size fo so wo doc).scaleX = .fin (size / 128) := by
      rw [show (createSvgIcon x y size fo so wo doc).scaleX =
          jsDiv (.fin size) (jsMax (svgResolvedDims doc).1 (svgResolvedDims doc).2) from rfl,
        hdims]
      norm_num [jsMax, jsDiv]
    exact ⟨h1, h1⟩

/-- Document with no attributes at all, used as the C4 witness input. -/
def bareDoc : XmlElem := .mk "svg" [] []

/-- C4 witness: the amended statement applied to a document with no viewBox
and no width/height attributes, at size 18. -/
theorem C4_amended_witness :
    attrDim (some "12") = jsNumber "12" ∧
    (createSvgIcon 0 0 18 none none none bareDoc).scaleX = .fin (18 / 128) ∧
    (createSvgIcon 0 0 18 none none none bareDoc).scaleY = .fin (18 / 128) := by
  have h := C4_amended 0 0 18 none none none bareDoc
  exact ⟨h.2.2.1 "12" (by decide), (h.2.2.2 rfl rfl rfl).1, (h.2.2.2 rfl rfl rfl).2⟩

/-- Path element declaring an empty-string fill, used against C3. -/
def emptyFillPath : XmlElem := .mk "path" [("d", "M0 0h8"), ("fill", "")] []

/-- C3 counterexample: a path declaring the empty string as its fill, with no
caller override, produces a node whose fill is unset — not the declared
attribute value — because the truthiness test at `documentIcon.ts:72` also
normalizes the empty string to undefined, so the claimed
override-then-inherit-else-unset precedence does not hold verbatim. -/
theorem C3_counterexample :
    buildPathNode none none none emptyFillPath =
      some { data := "M0 0h8", fill := none, stroke := none, strokeWidth := none } ∧
    getAttr emptyFillPath "fill" = some "" ∧
    (some "" ≠ (none : Option String)) := by
  refine ⟨by decide, by decide, by simp⟩

/-- C3 (amended): for every assembled node, each paint field takes the caller
override if provided, else the declared attribute, and the resolved value is
then normalized — the literal "none" and the empty string both become unset,
whether they arrive from the declared attribute or from the override, so
neither "none" nor "" is ever passed through to the created node — while an
absent strokeWidth stays absent rather than defaulting to zero. -/
theorem C3_amended (p : XmlElem) (v : String) (fo so : Option String)
    (wo : Option ℚ) (node : KonvaPath)
    (hbuild : buildPathNode fo so wo p = some node) :
    (fo = some v → v ≠ "none" → v ≠ "" → node.fill = some v) ∧
    (fo = none → getAttr p "fill" = some v → v ≠ "none" → v ≠ "" → node.fill = some v) ∧
    (fo = none → getAttr p "fill" = none → node.fill = none) ∧
    (fo = none → getAttr p "fill" = some "none" → node.fill = none) ∧
    (fo = none → getAttr p "fill" = some "" → node.fill = none) ∧
    (fo = some "none" → node.fill = none) ∧
    (fo = some "" → node.fill = none) ∧
    node.fill ≠ some "none" ∧
    node.fill ≠ some "" ∧
    (so = some v → v ≠ "none" → v ≠ "" → node.stroke = some v) ∧
    (so = none → getAttr p "stroke" = some v → v ≠ "none" → v ≠ "" → node.stroke = some v) ∧
    (so = none → getAttr p "stroke" = none → node.stroke = none) ∧
    (so = none → getAttr p "stroke" = some "none" → node.stroke = none) ∧
    (so = none → getAttr p "stroke" = some "" → node.stroke = none) ∧
    (so = some "none" → node.stroke = none) ∧
    (so = some "" → node.stroke = none) ∧
    node.stroke ≠ some "none" ∧
    node.stroke ≠ some "" ∧
    (wo = none → getAttr p "stroke-width" = none → node.strokeWidth = none) := by
  have hfill : node.fill = resolvePaint fo (getAttr p "fill") := by
    revert hbuild
    unfold buildPathNode
    cases getAttr p "d" with
    | none => intro h; exact absurd h (by simp)
    | some d0 =>
      by_cases hd0 : d0 = "" <;> simp [hd0]
      intro h; rw [← h]
  have hstroke : node.stroke = resolvePaint so (getAttr p "stroke") := by
    revert hbuild
    unfold buildPathNode
    cases getAttr p "d" with
    | none => intro h; exact absurd h (by simp)
    | some d0 =>
      by_cases hd0 : d0 = "" <;> simp [hd0]
      intro h; rw [← h]
  have hsw : node.strokeWidth = resolveSW wo p := by
    revert hbuild
    unfold buildPathNode
    cases getAttr p "d" with
    | none => intro h; exact absurd h (by simp)
    | some d0 =>
      by_cases hd0 : d0 = "" <;> simp [hd0]
      intro h; rw [← h]
  have hnorm : ∀ (ov dec : Option String) (w : String), w = "none" ∨ w = "" →
      resolvePaint ov dec ≠ some w := by
    intro ov dec w hw
    unfold resolvePaint
    cases Option.or ov dec with
    | none => simp
    | some s =>
      by_cases hs : s = "none" <;> by_cases hs2 : s = "" <;>
        rcases hw with rfl | rfl <;> simp [hs, hs2]
  refine ⟨?_, ?_, ?_, ?_, ?_, ?_, ?_, ?_, ?_, ?_, ?_, ?_, ?_, ?_, ?_, ?_, ?_, ?_, ?_⟩
  · intro hfo hvn hve
    rw [hfill, hfo]
    simp [resolvePaint, Option.or, hvn, hve]
  · intro hfo hdecl hvn hve
    rw [hfill, hfo, hdecl]
    simp [resolvePaint, Option.or, hvn, hve]
  · intro hfo hdecl
    rw [hfill, hfo, hdecl]
    rfl
  · intro hfo hdecl
    rw [hfill, hfo, hdecl]
    rfl
  · intro hfo hdecl
    rw [hfill, hfo, hdecl]
    rfl
  · intro hfo
    rw [hfill, hfo]
    rfl
  · intro hfo
    rw [hfill, hfo]
    rfl
  · rw [hfill]; exact hnorm _ _ _ (Or.inl rfl)
  · rw [hfill]; exact hnorm _ _ _ (Or.inr rfl)
  · intro hso hvn hve
    rw [hstroke, hso]
    simp [resolvePaint, Option.or, hvn, hve]
  · intro hso hdecl hvn hve
    rw [hstroke, hso, hdecl]
    simp [resolvePaint, Option.or, hvn, hve]
  · intro hso hdecl
    rw [hstroke, hso, hdecl]
    rfl
  · intro hso hdecl
    rw [hstroke, hso, hdecl]
    rfl
  · intro hso hdecl
    rw [hstroke, hso, hdecl]
    rfl
  · intro hso
    rw [hstroke, hso]
    rfl
  · intro hso
    rw [hstroke, hso]
    rfl
  · rw [hstroke]; exact hnorm _ _ _ (Or.inl rfl)
  · rw [hstroke]; exact hnorm _ _ _ (Or.inr rfl)
  · intro hwo hdecl
    rw [hsw]
    unfold resolveSW
    rw [hwo, hdecl]

/-- Path element declaring fill "red" and stroke "none", used as the C3
witness input. -/
def redFillPath : XmlElem := .mk "path" [("d", "M0 0h8"), ("fill", "red"), ("stroke", "none")] []

/-- C3 witness: the amended statement applied to a path declaring fill "red"
and stroke "none", with a caller fill override "blue" and no stroke override:
the node's fill is "blue", its stroke is unset, its strokeWidth is unset. -/
theorem C3_amended_witness :
    (buildPathNode (some "blue") none none redFillPath).map (fun n => n.fill) =
      some (some "blue") ∧
    (buildPathNode (some "blue") none none redFillPath).map (fun n => n.stroke) =
      some none ∧
    (buildPathNode (some "blue") none none redFillPath).map (fun n => n.strokeWidth) =
      some none := by
  have h := C3_amended redFillPath "blue" (some "blue") none none
    { data := "M0 0h8", fill := some "blue", stroke := none, strokeWidth := none }
    (by decide)
  have hb : buildPathNode (some "blue") none none redFillPath =
      some { data := "M0 0h8", fill := some "blue", stroke := none, strokeWidth := none } := by
    decide
  obtain ⟨f1, f2, f3, f4, f5, f6, f7, f8, f9, g1, g2, g3, g4, g5, g6, g7, g8, g9, w1⟩ := h
  refine ⟨?_, ?_, ?_⟩
  · rw [hb]
    exact congrArg some (f1 rfl (by simp) (by simp))
  · rw [hb]
    exact congrArg some (g4 rfl (by decide))
  · rw [hb]
    exact congrArg some (w1 rfl (by decide))

/-- The nonempty `d` attribute of a path element, when present: this is the
exact keep-or-skip test of the loop at `documentIcon.ts:62-64`. -/
def dAttrNonempty (p : XmlElem) : Option String :=
  match getAttr p "d" with
  | some d => if d = "" then none else some d
  | none => none

/-- Document with one path whose `d` attribute is the empty string and one
sibling path with path data, used against C6. -/
def emptyDPathDoc : XmlElem :=
  .mk "svg" [] [.mk "path" [("d", "")] [], .mk "path" [("d", "M0 0h8")] []]

/-- C6 counterexample: in a document holding a path with `d` equal to the
empty string and a sibling with real path data, both paths have a `d`
attribute, yet only one child node is created — the loop at
`documentIcon.ts:63-64` skips a falsy (empty) `d` as well, so the children are
not exactly the paths having a `d` attribute. -/
theorem C6_counterexample :
    (buildChildren none none none emptyDPathDoc).length = 1 ∧
    ((collectPaths emptyDPathDoc).filter
      (fun p => (getAttr p "d").isSome)).length = 2 := by
  constructor
  · decide
  · decide

/-- C6 (amended): the container's children are exactly the path elements whose
`d` attribute is present and nonempty, one child per such path, appended in
document order (the child path-data sequence equals the sequence of nonempty
`d` attributes over the pre-order path enumeration), and a document whose path
enumeration is empty yields zero children rather than an error. -/
theorem C6_amended (doc : XmlElem) (fo so : Option String) (wo : Option ℚ) :
    (buildChildren fo so wo doc).map (fun n => n.data) =
      (collectPaths doc).filterMap dAttrNonempty ∧
    (collectPaths doc = [] → buildChildren fo so wo doc = []) := by
  constructor
  · rw [buildChildren, List.map_filterMap]
    apply List.filterMap_congr
    intro p _
    unfold buildPathNode dAttrNonempty
    cases getAttr p "d" with
    | none => rfl
    | some d =>
      by_cases hd : d = "" <;> simp [hd]
  · intro h
    rw [buildChildren, h]
    rfl

/-- C6 witness: the amended statement applied to a document with no path
elements at all. -/
theorem C6_amended_witness :
    (buildChildren none none none bareDoc).map (fun n => n.data) =
      (collectPaths bareDoc).filterMap dAttrNonempty ∧
    buildChildren none none none bareDoc = [] :=
  ⟨(C6_amended bareDoc none none none).1,
    (C6_amended bareDoc none none none).2 (by rfl)⟩

/-- C7: for every position and style, `createDocumentIcon` returns exactly
five nodes — first a 16-by-16 rectangle anchored at (x, y) with only the
top-right corner rounded by cornerSize, then four horizontal ruling lines in
top-to-bottom order, line i at height y + 4 + i(16 - 4 - 4)/(4 + 1) for
i = 1..4, each starting at x + 3, the first ending at x + 16 - 6 and the
others at x + 16 - 3. -/
theorem C7_document_icon (x y : ℚ) (f s : Option String) (w c : Option ℚ) :
    createDocumentIcon x y f s w c =
      [DocIconNode.rect
        { x := x, y := y, width := 16, height := 16,
          fillLinearGradientStartPoint := (0, 0),
          fillLinearGradientEndPoint := (0, 16),
          fillLinearGradientColorStops := [(0, f.getD "rgb(255, 222, 33)"), (1, "#fff")],
          stroke := s.getD "#000",
          cornerRadius := [0, c.getD 3, 0, 0],
          strokeWidth := w.getD 1,
          shadowColor := "rgba(0,0,0,0.2)", shadowBlur := 2, shadowOffset := (1, 1),
          shadowOpacity := 3 / 10 },
       DocIconNode.line
        { points := [x + 3, y + 4 + 1 * ((16 - 4 - 4) / (4 + 1)),
            x + 16 - 6, y + 4 + 1 * ((16 - 4 - 4) / (4 + 1))],
          stroke := "#555", strokeWidth := 3 / 5, lineCap := "round" },
       DocIconNode.line
        { points := [x + 3, y + 4 + 2 * ((16 - 4 - 4) / (4 + 1)),
            x + 16 - 3, y + 4 + 2 * ((16 - 4 - 4) / (4 + 1))],
          stroke := "#555", strokeWidth := 3 / 5, lineCap := "round" },
       DocIconNode.line
        { points := [x + 3, y + 4 + 3 * ((16 - 4 - 4) / (4 + 1)),
            x + 16 - 3, y + 4 + 3 * ((16 - 4 - 4) / (4 + 1))],
          stroke := "#555", strokeWidth := 3 / 5, lineCap := "round" },
       DocIconNode.line
        { points := [x + 3, y + 4 + 4 * ((16 - 4 - 4) / (4 + 1)),
            x + 16 - 3, y + 4 + 4 * ((16 - 4 - 4) / (4 + 1))],
          stroke := "#555", strokeWidth := 3 / 5, lineCap := "round" }] := by
  have hr : List.range 4 = [0, 1, 2, 3] := rfl
  simp only [createDocumentIcon, hr, List.map_cons, List.map_nil]
  norm_num

/-- C8: with the line height read from the computed style (and the empty
computed value defaulting to 22), content whose full height is at most
rows times lineHeight plus 1 is never flagged as overflowing, and content
whose full height is at least rows times lineHeight plus 2 is flagged. -/
theorem C8_overflow_boundary (s : String) (rows h L : ℚ)
    (hL : jsParseFloat (if s = "" then "22" else s) = .fin L) :
    (s = "" → L = 22) ∧
    (h ≤ rows * L + 1 → measureOverflow s rows h = false) ∧
    (rows * L + 2 ≤ h → measureOverflow s rows h = true) := by
  have hcomp : measureOverflow s rows h = decide (L * rows + 1 < h) := by
    rw [measureOverflow]
    rw [hL]
    simp [jsMul, jsAdd, jsGt]
  refine ⟨?_, ?_, ?_⟩
  · intro hs
    rw [hs] at hL
    have h22 : jsParseFloat (if ("" : String) = "" then "22" else "") = .fin 22 := by decide
    rw [h22] at hL
    exact ((JSNum.fin.injEq 22 L).mp hL).symm
  · intro hle
    rw [hcomp, decide_eq_false_iff_not]
    rw [mul_comm]
    linarith
  · intro hge
    rw [hcomp, decide_eq_true_eq]
    rw [mul_comm]
    linarith

/-- C8 witness: the theorem applied at computed line height "22px", three
rows, full height exactly at the tolerance boundary 67 = 3 times 22 plus 1,
which is not flagged as overflowing. -/
theorem C8_overflow_boundary_witness : measureOverflow "22px" 3 67 = false :=
  (C8_overflow_boundary "22px" 3 67 22 (by decide)).2.1 (by norm_num)

/-- C9: a re-measurement event never changes the `expanded` flag (only the
explicit toggle event does), and when the content of an expanded widget no
longer overflows, the re-measured state hides the more/less affordance while
`expanded` stays true. -/
theorem C9_measure_preserves_expanded (s : ParagraphState) (lh : String)
    (rows sh : ℚ) :
    (stepParagraph s (.measure lh rows sh)).expanded = s.expanded ∧
    (∀ e : PEvent, (stepParagraph s e).expanded ≠ s.expanded → e = PEvent.toggle) ∧
    (s.expanded = true → measureOverflow lh rows sh = false →
      showsAffordance (stepParagraph s (.measure lh rows sh)) = false ∧
      (stepParagraph s (.measure lh rows sh)).expanded = true) := by
  refine ⟨rfl, ?_, ?_⟩
  · intro e he
    cases e with
    | measure lh2 rows2 sh2 => exact absurd rfl he
    | toggle => rfl
  · intro hexp hflag
    exact ⟨by rw [showsAffordance, stepParagraph, hflag], hexp⟩

/-- C9 witness: the theorem applied to an expanded, overflowing state whose
re-measurement (empty computed line height, 3 rows, height 10) finds no
overflow: the affordance goes away, the `expanded` flag stays true. -/
theorem C9_measure_preserves_expanded_witness :
    showsAffordance (stepParagraph ⟨true, true⟩ (.measure "" 3 10)) = false ∧
    (stepParagraph (⟨true, true⟩ : ParagraphState) (.measure "" 3 10)).expanded = true := by
  have hm : measureOverflow "" 3 10 = false := by
    have h22 : jsParseFloat "22" = .fin 22 := by decide
    rw [measureOverflow]
    norm_num [h22, jsMul, jsAdd, jsGt]
  exact (C9_measure_preserves_expanded ⟨true, true⟩ "" 3 10).2.2 rfl hm

/-- C10: the expand/collapse toggle is an involution on the widget state —
applying it twice restores the state exactly — and a single application flips
`expanded` while leaving `isOverflowing` (the only other state component)
unchanged. -/
theorem C10_toggle_involution (s : ParagraphState) :
    toggleExpanded (toggleExpanded s) = s ∧
    (toggleExpanded s).isOverflowing = s.isOverflowing ∧
    (toggleExpanded s).expanded = !s.expanded := by
  cases s
  simp [toggleExpanded]
